import Mathlib

/-!
Verification of the ASIS Research Platform API core (main.py).

A shallow embedding of the request handlers of `main.py`: user registration,
JWT issuance/verification, Stripe subscription creation, the user-profile and
admin-stats endpoints, and the Stripe webhook reconciler.

Modelling conventions:
* The PostgreSQL state (tables `users`, `subscriptions`, `research_queries`)
  is a `DB` structure of lists; every handler takes the `DB` and returns the
  possibly-updated `DB` explicitly, so frame conditions are theorems.
* External collaborators (the `stripe` SDK, PyJWT's HMAC, `hashlib.sha256`,
  `json` parsing) are modelled symbolically: a MAC/hash is a free constructor
  pairing the secret (resp. preimage) with the signed data, and the outcomes
  of the external Stripe API calls are parameters of the handler.
* An `HTTPException(code, detail)` raised by a handler is `HResult.httpError`;
  an uncaught Python exception (which FastAPI surfaces as a bare HTTP 500) is
  `HResult.exception` with the exception's class name.
* Machine-level details (UUID generation, wall-clock reads) are parameters
  (`newId`, `now`); times are unix seconds as `Int`.
-/

set_option autoImplicit false

namespace ASIS

/-! ## String helpers

`str.endswith` and the `in` substring test of Python, implemented over
`List Char` so that all proofs and witnesses reduce by `decide`/`simp`. -/

/-- Test `leadMatch needle hay`: `needle` occurs at the very start of `hay`. -/
def leadMatch : List Char → List Char → Bool
  | [], _ => true
  | _ :: _, [] => false
  | a :: as, b :: bs => a == b && leadMatch as bs

/-- Test `hasSub needle hay`: `needle` occurs contiguously somewhere in `hay`
(Python's `needle in hay`). -/
def hasSub (needle : List Char) : List Char → Bool
  | [] => leadMatch needle []
  | c :: t => leadMatch needle (c :: t) || hasSub needle t

/-- Python's `s.endswith(suffix)`. -/
def strEndsWith (s suffix : String) : Bool :=
  leadMatch suffix.toList.reverse s.toList.reverse

/-- Python's `sub in s` on strings. -/
def strContains (s sub : String) : Bool :=
  hasSub sub.toList s.toList

/-! ## HTTP result type -/

/-- Outcome of one request handler, as seen on the wire:
a JSON body, an `HTTPException(code, detail)`, or an uncaught Python
exception (FastAPI then answers with a bare HTTP 500). -/
inductive HResult (α : Type) where
  | ok (val : α)
  | httpError (code : Nat) (detail : String)
  | exception (name : String)
deriving DecidableEq, Repr

/-! ## Token Service (`create_access_token` / `verify_token`, main.py:155-176)

PyJWT's HS256 signature is modelled symbolically: the MAC over a claim set is
the pair (secret, claims), a free constructor, so two MACs are equal iff both
the secret and the signed claims are equal (the ideal-MAC assumption). -/

/-- The claim set the application puts in a token: the `"sub"` claim written
by the callers of `create_access_token` (absent if the caller omitted it) and
the `"exp"` claim the function appends. -/
structure JwtClaims where
  sub : Option String
  exp : Int
deriving DecidableEq, Repr

/-- A signed token: the (readable) claims plus the symbolic HMAC-SHA256
signature, i.e. the pair of signing secret and signed claims. -/
structure JwtToken where
  claims : JwtClaims
  sig : String × JwtClaims
deriving DecidableEq, Repr

/-- Model of `jwt.encode(claims, secret, algorithm="HS256")`. -/
def jwtEncode (secret : String) (claims : JwtClaims) : JwtToken :=
  { claims := claims, sig := (secret, claims) }

/-- Model of `jwt.decode(token, secret, algorithms=["HS256"])` at wall-clock `now`:
checks the signature against `secret`, then PyJWT's expiry validation
(`exp <= now` raises `ExpiredSignatureError`). Returns the claims, or
`none` for any `PyJWTError`. -/
def jwtDecode (secret : String) (now : Int) (tok : JwtToken) : Option JwtClaims :=
  if tok.sig = (secret, tok.claims) then
    if tok.claims.exp ≤ now then none
    else some tok.claims
  else none

/-- The function `create_access_token(data, expires_delta)` (main.py:155-165): copies the
caller's claims and appends `exp = now + expires_delta` (default 24 hours),
then signs with the process-wide `JWT_SECRET`. -/
def create_access_token (secret : String) (now : Int) (sub : Option String)
    (expires_delta : Option Int) : JwtToken :=
  let expire : Int := now + (match expires_delta with
    | some d => d
    | none => 24 * 3600)
  jwtEncode secret { sub := sub, exp := expire }

/-- The function `verify_token` (main.py:167-176): decodes with the shared secret; any
`PyJWTError` or a missing `"sub"` claim raises HTTP 401; otherwise returns
the embedded subject. -/
def verify_token (secret : String) (now : Int) (tok : JwtToken) : HResult String :=
  match jwtDecode secret now tok with
  | none => .httpError 401 "Invalid authentication credentials"
  | some payload =>
    match payload.sub with
    | none => .httpError 401 "Invalid authentication credentials"
    | some user_id => .ok user_id

/-! ## Data model (tables created at startup, main.py:96-137) -/

/-- Model of `hashlib.sha256(...).hexdigest()`, as a free constructor: the
digest is identified by its preimage (collision-freeness assumed). -/
structure Sha256Digest where
  preimage : String
deriving DecidableEq, Repr

/-- One row of the `users` table. -/
structure User where
  user_id : String
  email : String
  password_hash : Sha256Digest
  institution : String
  role : String
  tier : String
  subscription_status : String
  is_academic : Bool
  discount_percentage : Nat
  created_date : Int
  last_active : Int
  monthly_usage : List (String × Nat)
deriving DecidableEq, Repr

/-- One row of the `subscriptions` table. -/
structure Subscription where
  user_id : String
  stripe_subscription_id : String
  tier : String
  status : String
  billing_period : String
  current_period_start : Int
  current_period_end : Int
deriving DecidableEq, Repr

/-- One row of the `research_queries` table. -/
structure ResearchQueryRow where
  user_id : String
  query_text : String
  databases : List String
  results_count : Nat
  processing_time_ms : Nat
deriving DecidableEq, Repr

/-- The persistent state: the three PostgreSQL tables. -/
structure DB where
  users : List User
  subscriptions : List Subscription
  research_queries : List ResearchQueryRow
deriving DecidableEq, Repr

/-! ## Registration (`register_user`, main.py:220-258) -/

/-- The academic-discount test of main.py:236:
`user_data.email.endswith('.edu') or '.ac.' in user_data.email`.
Note the second disjunct searches the whole email, not just its domain. -/
def isAcademicEmail (email : String) : Bool :=
  strEndsWith email ".edu" || strContains email ".ac."

/-- The part of an email after its last `'@'` (the domain). Used to state
the spec's claim that eligibility is a function of the domain alone. -/
def emailDomain (email : String) : String :=
  ⟨(email.toList.reverse.takeWhile (fun c => c != '@')).reverse⟩

/-- JSON body returned by `POST /auth/register`. -/
structure RegisterResponse where
  user_id : String
  access_token : JwtToken
  token_type : String
  is_academic : Bool
  discount_percentage : Nat
deriving DecidableEq, Repr

/-- The handler `register_user` (main.py:220-258). `newId` is the UUID the database
generates for the inserted row, `now` the wall clock, `secret` the
process-wide `JWT_SECRET`. -/
def register_user (db : DB) (secret : String) (now : Int) (newId : String)
    (email password institution role : String) :
    HResult RegisterResponse × DB :=
  match db.users.find? (fun u => u.email == email) with
  | some _ => (.httpError 400 "User already exists", db)
  | none =>
    let is_academic := isAcademicEmail email
    let discount : Nat := if is_academic then 50 else 0
    let password_hash : Sha256Digest := ⟨password⟩
    let newUser : User :=
      { user_id := newId, email := email, password_hash := password_hash,
        institution := institution, role := role, tier := "academic",
        subscription_status := "active", is_academic := is_academic,
        discount_percentage := discount, created_date := now,
        last_active := now, monthly_usage := [] }
    let access_token := create_access_token secret now (some newId) none
    (.ok { user_id := newId, access_token := access_token,
           token_type := "bearer", is_academic := is_academic,
           discount_percentage := discount },
     { db with users := db.users ++ [newUser] })

/-! ## Subscription creation (`create_subscription`, main.py:292-369) -/

/-- The `pricing` dict of main.py:303-307: tier ↦ its period table, or `none`
when the tier is not a key (`tier not in pricing`). -/
def pricingLookup (tier : String) : Option (List (String × Nat)) :=
  if tier == "academic" then some [("monthly", 4950), ("annual", 49500)]
  else if tier == "professional" then some [("monthly", 29900), ("annual", 299000)]
  else if tier == "enterprise" then some [("monthly", 99900), ("annual", 999000)]
  else none

/-- Python dict subscripting `table[key]`: `none` models the `KeyError`. -/
def dictGet (table : List (String × Nat)) (key : String) : Option Nat :=
  (table.find? (fun p => p.1 == key)).map (fun p => p.2)

/-- What `stripe.Customer.create` / `stripe.Subscription.create` return for
this request: the first call fails, the second call fails, or both succeed
with the subscription object Stripe reports. -/
inductive ExtBilling where
  | customerError (msg : String)
  | subscriptionError (msg : String)
  | success (id : String) (status : String)
      (current_period_start : Int) (current_period_end : Int)
deriving DecidableEq, Repr

/-- JSON body returned by `POST /subscriptions/create`. -/
structure SubCreateResponse where
  subscription_id : String
  status : String
  tier : String
  amount : Nat
  current_period_end : Int
deriving DecidableEq, Repr

/-- Outcome of one `create_subscription` request: the wire result, the
database afterwards, and how many calls reached the external payment
processor (0, 1 after `Customer.create`, 2 after `Subscription.create`). -/
structure CSOutcome where
  result : HResult SubCreateResponse
  db : DB
  stripeCalls : Nat
deriving DecidableEq, Repr

/-- The handler `create_subscription` (main.py:292-369). `ext` is the behaviour of the
external Stripe API on this request's two calls. Mirrors the source order:
tier membership check, `pricing[tier][billing_period]` subscripting (an
uncaught `KeyError` when the period is not a key), user lookup,
`Customer.create`, `Subscription.create` (a `StripeError` from either is
mapped to HTTP 400 with the error's message), then the local INSERT of the
subscription row and UPDATE of the user's tier/status. -/
def create_subscription (db : DB) (ext : ExtBilling)
    (tier billing_period payment_method_id user_id : String) : CSOutcome :=
  match pricingLookup tier with
  | none => ⟨.httpError 400 "Invalid tier", db, 0⟩
  | some table =>
    match dictGet table billing_period with
    | none => ⟨.exception "KeyError", db, 0⟩
    | some amount =>
      match db.users.find? (fun u => u.user_id == user_id) with
      | none => ⟨.httpError 404 "User not found", db, 0⟩
      | some _user =>
        match ext with
        | .customerError msg => ⟨.httpError 400 msg, db, 1⟩
        | .subscriptionError msg => ⟨.httpError 400 msg, db, 2⟩
        | .success subId subStatus ps pe =>
          let newSub : Subscription :=
            { user_id := user_id, stripe_subscription_id := subId,
              tier := tier, status := "active", billing_period := billing_period,
              current_period_start := ps, current_period_end := pe }
          let db' : DB :=
            { db with
              subscriptions := db.subscriptions ++ [newSub],
              users := db.users.map (fun u =>
                if u.user_id == user_id then
                  { u with tier := tier, subscription_status := "active" }
                else u) }
          ⟨.ok { subscription_id := subId, status := subStatus, tier := tier,
                 amount := amount, current_period_end := pe }, db', 2⟩

/-! ## Profile (`get_user_profile`, main.py:430-459) -/

/-- JSON body returned by `GET /users/profile`: every column the SELECT of
main.py:438-442 reads. -/
structure ProfileResponse where
  user_id : String
  email : String
  institution : String
  role : String
  tier : String
  subscription_status : String
  is_academic : Bool
  discount_percentage : Nat
  created_date : Int
  last_active : Int
  monthly_usage : List (String × Nat)
deriving DecidableEq, Repr

/-- The handler `get_user_profile` (main.py:430-459): `user_id` is the subject of the
verified bearer token; an absent row raises HTTP 404. Read-only. -/
def get_user_profile (db : DB) (user_id : String) :
    HResult ProfileResponse × DB :=
  match db.users.find? (fun u => u.user_id == user_id) with
  | none => (.httpError 404 "User not found", db)
  | some u =>
    (.ok { user_id := u.user_id, email := u.email, institution := u.institution,
           role := u.role, tier := u.tier,
           subscription_status := u.subscription_status,
           is_academic := u.is_academic,
           discount_percentage := u.discount_percentage,
           created_date := u.created_date, last_active := u.last_active,
           monthly_usage := u.monthly_usage }, db)

/-! ## Admin statistics (`get_admin_stats`, main.py:461-501) -/

/-- The `tier_prices` dict of main.py:492 (`.get(tier, 0)` default 0);
prices are in dollars, `49.5` being a float in the source, hence `ℚ`. -/
def tier_prices (tier : String) : ℚ :=
  if tier == "academic" then 99 / 2
  else if tier == "professional" then 299
  else if tier == "enterprise" then 999
  else 0

/-- The `GROUP BY tier` query of main.py:485-488: for each distinct tier
among active subscriptions, that tier with its row count. -/
def revenueRows (subs : List Subscription) : List (String × Nat) :=
  let active := subs.filter (fun s => s.status == "active")
  ((active.map (fun s => s.tier)).dedup).map
    (fun t => (t, (active.filter (fun s => s.tier == t)).length))

/-- The revenue loop of main.py:490-493. -/
def monthlyRevenue (subs : List Subscription) : ℚ :=
  (revenueRows subs).foldl (fun acc row => acc + tier_prices row.1 * row.2) 0

/-- JSON body returned by `GET /admin/stats`. -/
structure AdminStatsResponse where
  total_users : Nat
  active_subscriptions : Nat
  total_queries : Nat
  estimated_monthly_revenue : ℚ
deriving DecidableEq, Repr

/-- Outcome of one `GET /admin/stats` request: the wire result and the number
of statistics queries executed against the database (the COUNT/GROUP BY
queries of main.py:478-488; the admin role lookup is not counted). -/
structure StatsOutcome where
  result : HResult AdminStatsResponse
  statsQueries : Nat
deriving DecidableEq, Repr

/-- The handler `get_admin_stats` (main.py:461-501): fetches the caller's role first
(`fetchval` yields NULL for an absent row, which also fails the `"admin"`
comparison) and raises HTTP 403 before any statistic is computed; for an
admin it runs the three COUNTs and the revenue GROUP BY. Read-only. -/
def get_admin_stats (db : DB) (user_id : String) : StatsOutcome :=
  let user_role : Option String :=
    (db.users.find? (fun u => u.user_id == user_id)).map (fun u => u.role)
  if user_role ≠ some "admin" then
    ⟨.httpError 403 "Admin access required", 0⟩
  else
    ⟨.ok { total_users := db.users.length,
           active_subscriptions :=
             (db.subscriptions.filter (fun s => s.status == "active")).length,
           total_queries := db.research_queries.length,
           estimated_monthly_revenue := monthlyRevenue db.subscriptions }, 4⟩

/-! ## Stripe webhook (`stripe_webhook`, main.py:504-534) -/

/-- Symbolic HMAC signature of a raw webhook payload under the webhook
secret, as computed/checked by `stripe.Webhook.construct_event`: a free
constructor pairing secret and payload (the ideal-MAC assumption). -/
structure StripeSig where
  secret : String
  payload : String
deriving DecidableEq, Repr

/-- The fields of a parsed Stripe event that the handler reads: `type`, and
for the object `data.object` its `id`, `status` and `current_period_end`. -/
structure StripeEvent where
  type_ : String
  objId : String
  objStatus : String
  objPeriodEnd : Int
deriving DecidableEq, Repr

/-- Result of `stripe.Webhook.construct_event`, modelled at its interface (the SDK is an
external collaborator): verifies the symbolic signature against the webhook
secret (`SignatureVerificationError` if it does not match) and parses the
payload (`ValueError` if unparseable), `parse` being the JSON decoding. -/
inductive ConstructEventResult where
  | parseError
  | sigError
  | ok (e : StripeEvent)
deriving DecidableEq, Repr

/-- Model of `construct_event(payload, sig_header, secret)`. -/
def construct_event (parse : String → Option StripeEvent)
    (payload : String) (sig : StripeSig) (secret : String) :
    ConstructEventResult :=
  if sig = ⟨secret, payload⟩ then
    match parse payload with
    | none => .parseError
    | some e => .ok e
  else .sigError

/-- JSON body returned by `POST /webhooks/stripe` on success. -/
structure WebhookResponse where
  received : Bool
deriving DecidableEq, Repr

/-- The handler `stripe_webhook` (main.py:504-534): rejects with HTTP 400 on a bad
payload or bad signature; on a `customer.subscription.updated` event runs
`UPDATE subscriptions SET status, current_period_end WHERE
stripe_subscription_id = event id`; any other event type is ignored. Always
answers the body with `received` set to `true` past verification. -/
def stripe_webhook (parse : String → Option StripeEvent) (secret : String)
    (db : DB) (payload : String) (sig : StripeSig) :
    HResult WebhookResponse × DB :=
  match construct_event parse payload sig secret with
  | .parseError => (.httpError 400 "Invalid payload", db)
  | .sigError => (.httpError 400 "Invalid signature", db)
  | .ok e =>
    if e.type_ == "customer.subscription.updated" then
      (.ok ⟨true⟩,
       { db with
         subscriptions := db.subscriptions.map (fun s =>
           if s.stripe_subscription_id == e.objId then
             { s with status := e.objStatus, current_period_end := e.objPeriodEnd }
           else s) })
    else (.ok ⟨true⟩, db)

/-! ## Sample data used by the concrete witnesses -/

/-- A concrete registered researcher row. -/
def sampleUser : User :=
  { user_id := "u1", email := "alice@university.edu", password_hash := ⟨"pw"⟩,
    institution := "Example University", role := "researcher",
    tier := "academic", subscription_status := "active", is_academic := true,
    discount_percentage := 50, created_date := 0, last_active := 0,
    monthly_usage := [] }

/-- A concrete admin row. -/
def sampleAdmin : User :=
  { sampleUser with
    user_id := "u2",
    email := "root@asisai.com",
    role := "admin",
    is_academic := false,
    discount_percentage := 0 }

/-- A concrete subscription row. -/
def sampleSub : Subscription :=
  { user_id := "u1", stripe_subscription_id := "sub_1", tier := "academic",
    status := "active", billing_period := "monthly",
    current_period_start := 0, current_period_end := 100 }

/-- A second concrete subscription row, with a different external id. -/
def sampleSub2 : Subscription :=
  { user_id := "u2", stripe_subscription_id := "sub_2", tier := "professional",
    status := "active", billing_period := "annual",
    current_period_start := 0, current_period_end := 200 }

/-! ## C2: token service -/

/-- C2 counterexample: the claim quantifies over every TTL, but a token
issued with a nonpositive TTL (here one hour in the past) carries an already
expired `exp` claim, so `verify_token` rejects it with HTTP 401 instead of
returning the subject. -/
theorem C2_roundtrip_counterexample :
    verify_token "jwt-secret" 1000
        (create_access_token "jwt-secret" 1000 (some "alice") (some (-3600)))
      = .httpError 401 "Invalid authentication credentials" := by decide

/-- C2 (amended): for every subject and every positive TTL (and for the
default 24-hour TTL), a token produced by `create_access_token` and
immediately passed to `verify_token` returns exactly that subject; every
token whose embedded expiry lies in the past fails with HTTP 401; and every
token signed with a secret different from the verifier's secret fails with
HTTP 401. -/
theorem C2_token_service :
    (∀ (secret subject : String) (now ttl : Int), 0 < ttl →
      verify_token secret now
          (create_access_token secret now (some subject) (some ttl))
        = .ok subject)
    ∧ (∀ (secret subject : String) (now : Int),
      verify_token secret now
          (create_access_token secret now (some subject) none)
        = .ok subject)
    ∧ (∀ (secret : String) (now : Int) (tok : JwtToken),
      tok.claims.exp < now →
      verify_token secret now tok
        = .httpError 401 "Invalid authentication credentials")
    ∧ (∀ (s1 s2 : String) (now : Int) (claims : JwtClaims), s1 ≠ s2 →
      verify_token s2 now (jwtEncode s1 claims)
        = .httpError 401 "Invalid authentication credentials") := by
  refine ⟨?_, ?_, ?_, ?_⟩
  · intro secret subject now ttl h
    have hlt : ¬ (now + ttl ≤ now) := by omega
    simp [verify_token, create_access_token, jwtEncode, jwtDecode, hlt]
  · intro secret subject now
    have hlt : ¬ (now + 24 * 3600 ≤ now) := by omega
    simp [verify_token, create_access_token, jwtEncode, jwtDecode, hlt]
  · intro secret now tok h
    have hle : tok.claims.exp ≤ now := le_of_lt h
    rcases tok with ⟨claims, sig⟩
    by_cases hsig : sig = (secret, claims)
    · simp only at hle
      simp [verify_token, jwtDecode, hsig, hle]
    · simp [verify_token, jwtDecode, hsig]
  · intro s1 s2 now claims h
    have hne : ((s1, claims) : String × JwtClaims) ≠ (s2, claims) := by
      simp [Prod.ext_iff, h]
    simp [verify_token, jwtDecode, jwtEncode, hne]

/-- C2 witness: the three amended clauses at concrete inputs. -/
theorem C2_token_service_witness :
    verify_token "jwt-secret" 100
        (create_access_token "jwt-secret" 100 (some "alice") (some 3600))
      = .ok "alice"
    ∧ verify_token "jwt-secret" 100
        (create_access_token "jwt-secret" 100 (some "alice") none)
      = .ok "alice"
    ∧ verify_token "jwt-secret" 100
        ⟨⟨some "alice", 50⟩, ("jwt-secret", ⟨some "alice", 50⟩)⟩
      = .httpError 401 "Invalid authentication credentials"
    ∧ verify_token "other-secret" 0 (jwtEncode "jwt-secret" ⟨some "bob", 999⟩)
      = .httpError 401 "Invalid authentication credentials" :=
  ⟨C2_token_service.1 "jwt-secret" "alice" 100 3600 (by decide),
   C2_token_service.2.1 "jwt-secret" "alice" 100,
   C2_token_service.2.2.1 "jwt-secret" 100
     ⟨⟨some "alice", 50⟩, ("jwt-secret", ⟨some "alice", 50⟩)⟩ (by decide),
   C2_token_service.2.2.2 "jwt-secret" "other-secret" 0 ⟨some "bob", 999⟩
     (by decide)⟩

/-! ## C1, C9, C10: the Stripe webhook handler -/

/-- C1: every inbound webhook request whose signature does not verify, or
whose payload cannot be parsed, is rejected with HTTP 400 and leaves the
whole database (users, subscriptions, research queries) untouched,
regardless of payload content. -/
theorem C1_webhook_fails_closed :
    (∀ (parse : String → Option StripeEvent) (secret : String) (db : DB)
        (payload : String) (sig : StripeSig),
      sig ≠ ⟨secret, payload⟩ →
      stripe_webhook parse secret db payload sig
        = (.httpError 400 "Invalid signature", db))
    ∧ (∀ (parse : String → Option StripeEvent) (secret : String) (db : DB)
        (payload : String) (sig : StripeSig),
      sig = ⟨secret, payload⟩ → parse payload = none →
      stripe_webhook parse secret db payload sig
        = (.httpError 400 "Invalid payload", db)) := by
  constructor
  · intro parse secret db payload sig h
    simp [stripe_webhook, construct_event, h]
  · intro parse secret db payload sig hsig hparse
    simp [stripe_webhook, construct_event, hsig, hparse]

/-- C1 witness: a forged signature over a well-formed
subscription-cancellation payload is rejected and the matching subscription
row survives unchanged; a correctly signed but unparseable payload is also
rejected without mutation. -/
theorem C1_webhook_fails_closed_witness :
    stripe_webhook (fun _ => some ⟨"customer.subscription.updated", "sub_1", "canceled", 999⟩)
        "whsec" ⟨[sampleUser], [sampleSub], []⟩ "payload-a" ⟨"forged", "payload-a"⟩
      = (.httpError 400 "Invalid signature", ⟨[sampleUser], [sampleSub], []⟩)
    ∧ stripe_webhook (fun _ => none)
        "whsec" ⟨[sampleUser], [sampleSub], []⟩ "not json" ⟨"whsec", "not json"⟩
      = (.httpError 400 "Invalid payload", ⟨[sampleUser], [sampleSub], []⟩) :=
  ⟨C1_webhook_fails_closed.1
      (fun _ => some ⟨"customer.subscription.updated", "sub_1", "canceled", 999⟩)
      "whsec" ⟨[sampleUser], [sampleSub], []⟩ "payload-a" ⟨"forged", "payload-a"⟩
      (by decide),
   C1_webhook_fails_closed.2 (fun _ => none)
      "whsec" ⟨[sampleUser], [sampleSub], []⟩ "not json" ⟨"whsec", "not json"⟩
      rfl rfl⟩

/-- C9: a correctly signed `customer.subscription.updated` event answers
with received=true, leaves users and research queries untouched, creates no
subscription row, and rewrites exactly the rows whose external id matches
the event object, setting their status and period-end to the event values;
when no row matches, the whole database is left exactly as it was. -/
theorem C9_subscription_update_applied :
    (∀ (parse : String → Option StripeEvent) (secret : String) (db : DB)
        (payload : String) (sig : StripeSig) (e : StripeEvent),
      sig = ⟨secret, payload⟩ → parse payload = some e →
      e.type_ = "customer.subscription.updated" →
      (stripe_webhook parse secret db payload sig).1 = .ok ⟨true⟩
      ∧ (stripe_webhook parse secret db payload sig).2.users = db.users
      ∧ (stripe_webhook parse secret db payload sig).2.research_queries
          = db.research_queries
      ∧ (stripe_webhook parse secret db payload sig).2.subscriptions.length
          = db.subscriptions.length
      ∧ (stripe_webhook parse secret db payload sig).2.subscriptions
          = db.subscriptions.map (fun s =>
              if s.stripe_subscription_id == e.objId then
                { s with status := e.objStatus,
                         current_period_end := e.objPeriodEnd }
              else s))
    ∧ (∀ (parse : String → Option StripeEvent) (secret : String) (db : DB)
        (payload : String) (sig : StripeSig) (e : StripeEvent),
      sig = ⟨secret, payload⟩ → parse payload = some e →
      e.type_ = "customer.subscription.updated" →
      (∀ s ∈ db.subscriptions, s.stripe_subscription_id ≠ e.objId) →
      stripe_webhook parse secret db payload sig = (.ok ⟨true⟩, db)) := by
  constructor
  · intro parse secret db payload sig e hsig hparse htype
    simp [stripe_webhook, construct_event, hsig, hparse, htype]
  · intro parse secret db payload sig e hsig hparse htype hnomatch
    have hmap : db.subscriptions.map (fun s =>
        if s.stripe_subscription_id == e.objId then
          { s with status := e.objStatus,
                   current_period_end := e.objPeriodEnd }
        else s) = db.subscriptions := by
      have := List.map_congr_left (l := db.subscriptions)
        (f := fun s =>
          if s.stripe_subscription_id == e.objId then
            { s with status := e.objStatus,
                     current_period_end := e.objPeriodEnd }
          else s)
        (g := id) (fun s hs => by simp [hnomatch s hs])
      simpa using this
    rcases db with ⟨us, ss, qs⟩
    simp only [beq_iff_eq] at hmap
    simp [stripe_webhook, construct_event, hsig, hparse, htype, hmap]

/-- C9 witness: applying the theorem to a database holding a matching and a
non-matching subscription (the matching row is rewritten in place, the other
kept), and to a database with no matching row (untouched). -/
theorem C9_subscription_update_applied_witness :
    ((stripe_webhook (fun _ => some ⟨"customer.subscription.updated", "sub_1", "past_due", 777⟩)
        "whsec" ⟨[sampleUser], [sampleSub, sampleSub2], []⟩ "pl" ⟨"whsec", "pl"⟩).1
      = .ok ⟨true⟩
    ∧ (stripe_webhook (fun _ => some ⟨"customer.subscription.updated", "sub_1", "past_due", 777⟩)
        "whsec" ⟨[sampleUser], [sampleSub, sampleSub2], []⟩ "pl" ⟨"whsec", "pl"⟩).2.users
      = [sampleUser]
    ∧ (stripe_webhook (fun _ => some ⟨"customer.subscription.updated", "sub_1", "past_due", 777⟩)
        "whsec" ⟨[sampleUser], [sampleSub, sampleSub2], []⟩ "pl" ⟨"whsec", "pl"⟩).2.research_queries
      = []
    ∧ (stripe_webhook (fun _ => some ⟨"customer.subscription.updated", "sub_1", "past_due", 777⟩)
        "whsec" ⟨[sampleUser], [sampleSub, sampleSub2], []⟩ "pl" ⟨"whsec", "pl"⟩).2.subscriptions.length
      = 2
    ∧ (stripe_webhook (fun _ => some ⟨"customer.subscription.updated", "sub_1", "past_due", 777⟩)
        "whsec" ⟨[sampleUser], [sampleSub, sampleSub2], []⟩ "pl" ⟨"whsec", "pl"⟩).2.subscriptions
      = [{ sampleSub with status := "past_due", current_period_end := 777 }, sampleSub2])
    ∧ stripe_webhook (fun _ => some ⟨"customer.subscription.updated", "sub_404", "past_due", 777⟩)
        "whsec" ⟨[sampleUser], [sampleSub, sampleSub2], []⟩ "pl" ⟨"whsec", "pl"⟩
      = (.ok ⟨true⟩, ⟨[sampleUser], [sampleSub, sampleSub2], []⟩) :=
  ⟨C9_subscription_update_applied.1
      (fun _ => some ⟨"customer.subscription.updated", "sub_1", "past_due", 777⟩)
      "whsec" ⟨[sampleUser], [sampleSub, sampleSub2], []⟩ "pl" ⟨"whsec", "pl"⟩
      ⟨"customer.subscription.updated", "sub_1", "past_due", 777⟩ rfl rfl rfl,
   C9_subscription_update_applied.2
      (fun _ => some ⟨"customer.subscription.updated", "sub_404", "past_due", 777⟩)
      "whsec" ⟨[sampleUser], [sampleSub, sampleSub2], []⟩ "pl" ⟨"whsec", "pl"⟩
      ⟨"customer.subscription.updated", "sub_404", "past_due", 777⟩ rfl rfl rfl
      (by decide)⟩

/-- C10: a correctly signed and parsed webhook event of any type other than
customer.subscription.updated answers received=true and leaves the whole
database exactly as it was. -/
theorem C10_other_events_are_noops :
    ∀ (parse : String → Option StripeEvent) (secret : String) (db : DB)
      (payload : String) (sig : StripeSig) (e : StripeEvent),
    sig = ⟨secret, payload⟩ → parse payload = some e →
    e.type_ ≠ "customer.subscription.updated" →
    stripe_webhook parse secret db payload sig = (.ok ⟨true⟩, db) := by
  intro parse secret db payload sig e hsig hparse htype
  simp [stripe_webhook, construct_event, hsig, hparse, htype]

/-- C10 witness: a signed invoice.payment_succeeded event against a
populated database changes nothing. -/
theorem C10_other_events_are_noops_witness :
    stripe_webhook (fun _ => some ⟨"invoice.payment_succeeded", "sub_1", "canceled", 5⟩)
        "whsec" ⟨[sampleUser, sampleAdmin], [sampleSub], []⟩ "pl" ⟨"whsec", "pl"⟩
      = (.ok ⟨true⟩, ⟨[sampleUser, sampleAdmin], [sampleSub], []⟩) :=
  C10_other_events_are_noops
    (fun _ => some ⟨"invoice.payment_succeeded", "sub_1", "canceled", 5⟩)
    "whsec" ⟨[sampleUser, sampleAdmin], [sampleSub], []⟩ "pl" ⟨"whsec", "pl"⟩
    ⟨"invoice.payment_succeeded", "sub_1", "canceled", 5⟩ rfl rfl (by decide)

/-! ## C3, C6: registration -/

/-- Observation helper: the is_academic field of a registration response,
if the registration succeeded. -/
def registerIsAcademic (r : HResult RegisterResponse × DB) : Option Bool :=
  match r.1 with
  | .ok resp => some resp.is_academic
  | _ => none

/-- Observation helper: the discount_percentage field of a registration
response, if the registration succeeded. -/
def registerDiscount (r : HResult RegisterResponse × DB) : Option Nat :=
  match r.1 with
  | .ok resp => some resp.discount_percentage
  | _ => none

/-- C3 counterexample: eligibility is not a rule on the email domain. The
emails john.ac.smith@gmail.com and john@gmail.com share the domain
gmail.com, yet registration marks the first academic (with a 50% discount)
and the second not: the source also searches for ".ac." in the local part
of the address. -/
theorem C3_domain_rule_counterexample :
    emailDomain "john.ac.smith@gmail.com" = emailDomain "john@gmail.com"
    ∧ registerIsAcademic (register_user ⟨[], [], []⟩ "jwt-secret" 0 "u9"
        "john.ac.smith@gmail.com" "pw" "None" "researcher") = some true
    ∧ registerDiscount (register_user ⟨[], [], []⟩ "jwt-secret" 0 "u9"
        "john.ac.smith@gmail.com" "pw" "None" "researcher") = some 50
    ∧ registerIsAcademic (register_user ⟨[], [], []⟩ "jwt-secret" 0 "u9"
        "john@gmail.com" "pw" "None" "researcher") = some false
    ∧ registerDiscount (register_user ⟨[], [], []⟩ "jwt-secret" 0 "u9"
        "john@gmail.com" "pw" "None" "researcher") = some 0 := by decide

/-- C3 (amended): the academic eligibility decision is the fixed rule of
isAcademicEmail on the whole email (it ends with ".edu", or contains ".ac."
anywhere, local part included). Every eligible email is registered with
is_academic true and discount 50, every other with is_academic false and
discount 0, and the persisted row carries exactly the values the response
reports. -/
theorem C3_academic_rule :
    ∀ (db : DB) (secret : String) (now : Int)
      (newId email password institution role : String),
    db.users.find? (fun u => u.email == email) = none →
    registerIsAcademic (register_user db secret now newId email password institution role)
        = some (isAcademicEmail email)
    ∧ registerDiscount (register_user db secret now newId email password institution role)
        = some (if isAcademicEmail email then 50 else 0)
    ∧ (register_user db secret now newId email password institution role).2.users.map
          (fun u => (u.email, u.is_academic, u.discount_percentage))
        = db.users.map (fun u => (u.email, u.is_academic, u.discount_percentage))
          ++ [(email, isAcademicEmail email,
               if isAcademicEmail email then 50 else 0)] := by
  intro db secret now newId email password institution role hfind
  simp [register_user, registerIsAcademic, registerDiscount, hfind]

/-- C3 witness: an eligible .edu email and an ineligible commercial email,
each registered against an empty store. -/
theorem C3_academic_rule_witness :
    (registerIsAcademic (register_user ⟨[], [], []⟩ "jwt-secret" 0 "u1"
        "alice@university.edu" "pw" "Example University" "researcher") = some true
    ∧ registerDiscount (register_user ⟨[], [], []⟩ "jwt-secret" 0 "u1"
        "alice@university.edu" "pw" "Example University" "researcher") = some 50
    ∧ (register_user ⟨[], [], []⟩ "jwt-secret" 0 "u1"
        "alice@university.edu" "pw" "Example University" "researcher").2.users.map
          (fun u => (u.email, u.is_academic, u.discount_percentage))
        = [("alice@university.edu", true, 50)])
    ∧ (registerIsAcademic (register_user ⟨[], [], []⟩ "jwt-secret" 0 "u1"
        "bob@corp.com" "pw" "Corp" "researcher") = some false
    ∧ registerDiscount (register_user ⟨[], [], []⟩ "jwt-secret" 0 "u1"
        "bob@corp.com" "pw" "Corp" "researcher") = some 0
    ∧ (register_user ⟨[], [], []⟩ "jwt-secret" 0 "u1"
        "bob@corp.com" "pw" "Corp" "researcher").2.users.map
          (fun u => (u.email, u.is_academic, u.discount_percentage))
        = [("bob@corp.com", false, 0)]) :=
  ⟨C3_academic_rule ⟨[], [], []⟩ "jwt-secret" 0 "u1"
      "alice@university.edu" "pw" "Example University" "researcher" rfl,
   C3_academic_rule ⟨[], [], []⟩ "jwt-secret" 0 "u1"
      "bob@corp.com" "pw" "Corp" "researcher" rfl⟩

/-- C6: registering an email that already exists fails with HTTP 400 and
leaves the database untouched; the first registration of an email (no user
with that email yet) succeeds, answering the new user id, a token that
verifies back to that id, the computed academic fields, and appending
exactly one user row with those values. -/
theorem C6_registration_conflict :
    (∀ (db : DB) (secret : String) (now : Int)
        (newId email password institution role : String) (u : User),
      u ∈ db.users → u.email = email →
      register_user db secret now newId email password institution role
        = (.httpError 400 "User already exists", db))
    ∧ (∀ (db : DB) (secret : String) (now : Int)
        (newId email password institution role : String),
      db.users.find? (fun x => x.email == email) = none →
      (register_user db secret now newId email password institution role).1
        = .ok { user_id := newId,
                access_token := create_access_token secret now (some newId) none,
                token_type := "bearer",
                is_academic := isAcademicEmail email,
                discount_percentage := if isAcademicEmail email then 50 else 0 }
      ∧ verify_token secret now (create_access_token secret now (some newId) none)
          = .ok newId
      ∧ (register_user db secret now newId email password institution role).2.users
          = db.users ++
            [{ user_id := newId, email := email, password_hash := ⟨password⟩,
               institution := institution, role := role, tier := "academic",
               subscription_status := "active",
               is_academic := isAcademicEmail email,
               discount_percentage := if isAcademicEmail email then 50 else 0,
               created_date := now, last_active := now, monthly_usage := [] }]) := by
  constructor
  · intro db secret now newId email password institution role u hmem heq
    obtain ⟨v, hv⟩ : ∃ v, db.users.find? (fun x => x.email == email) = some v := by
      cases hf : db.users.find? (fun x => x.email == email) with
      | some v => exact ⟨v, rfl⟩
      | none =>
        rw [List.find?_eq_none] at hf
        exact absurd (by simp [heq]) (hf u hmem)
    simp [register_user, hv]
  · intro db secret now newId email password institution role hfind
    refine ⟨by simp [register_user, hfind], ?_, by simp [register_user, hfind]⟩
    have hlt : ¬ (now + 24 * 3600 ≤ now) := by omega
    simp [verify_token, create_access_token, jwtEncode, jwtDecode, hlt]

/-- C6 witness: re-registering the stored .edu address is rejected without
mutation; registering a fresh address on an empty store succeeds with the
expected response and persisted row. -/
theorem C6_registration_conflict_witness :
    register_user ⟨[sampleUser], [], []⟩ "jwt-secret" 7 "u3"
        "alice@university.edu" "pw2" "Other Inst" "researcher"
      = (.httpError 400 "User already exists", ⟨[sampleUser], [], []⟩)
    ∧ ((register_user ⟨[], [], []⟩ "jwt-secret" 7 "u3"
          "carol@lab.ac.uk" "pw3" "Lab" "researcher").1
        = .ok { user_id := "u3",
                access_token := create_access_token "jwt-secret" 7 (some "u3") none,
                token_type := "bearer",
                is_academic := true,
                discount_percentage := 50 }
      ∧ verify_token "jwt-secret" 7 (create_access_token "jwt-secret" 7 (some "u3") none)
          = .ok "u3"
      ∧ (register_user ⟨[], [], []⟩ "jwt-secret" 7 "u3"
          "carol@lab.ac.uk" "pw3" "Lab" "researcher").2.users
        = [{ user_id := "u3", email := "carol@lab.ac.uk", password_hash := ⟨"pw3"⟩,
             institution := "Lab", role := "researcher", tier := "academic",
             subscription_status := "active", is_academic := true,
             discount_percentage := 50, created_date := 7, last_active := 7,
             monthly_usage := [] }]) :=
  ⟨C6_registration_conflict.1 ⟨[sampleUser], [], []⟩ "jwt-secret" 7 "u3"
      "alice@university.edu" "pw2" "Other Inst" "researcher" sampleUser
      (by decide) rfl,
   C6_registration_conflict.2 ⟨[], [], []⟩ "jwt-secret" 7 "u3"
      "carol@lab.ac.uk" "pw3" "Lab" "researcher" rfl⟩

/-! ## C4, C5: subscription creation -/

/-- C4 counterexample: a recognized tier with an unrecognized billing period
is not rejected with HTTP 400. The subscript pricing-table access raises an
uncaught KeyError, which the framework surfaces as a bare HTTP 500 (no
processor call is made and nothing is persisted, but the failure mode the
claim states is wrong). -/
theorem C4_counterexample :
    create_subscription ⟨[sampleUser], [], []⟩ (.success "sub_9" "active" 0 100)
        "academic" "weekly" "pm_1" "u1"
      = ⟨.exception "KeyError", ⟨[sampleUser], [], []⟩, 0⟩ := by decide

/-- C4 (amended): an unrecognized tier fails with HTTP 400 "Invalid tier",
with no processor call and no persistence; a recognized tier with an
unrecognized billing period escapes as an uncaught KeyError (HTTP 500 from
the framework), likewise with no processor call and no persistence. -/
theorem C4_validation :
    (∀ (db : DB) (ext : ExtBilling)
        (tier billing_period payment_method_id user_id : String),
      pricingLookup tier = none →
      create_subscription db ext tier billing_period payment_method_id user_id
        = ⟨.httpError 400 "Invalid tier", db, 0⟩)
    ∧ (∀ (db : DB) (ext : ExtBilling)
        (tier billing_period payment_method_id user_id : String)
        (table : List (String × Nat)),
      pricingLookup tier = some table →
      dictGet table billing_period = none →
      create_subscription db ext tier billing_period payment_method_id user_id
        = ⟨.exception "KeyError", db, 0⟩) := by
  constructor
  · intro db ext tier billing_period payment_method_id user_id h
    simp [create_subscription, h]
  · intro db ext tier billing_period payment_method_id user_id table ht hp
    simp [create_subscription, ht, hp]

/-- C4 witness: the unrecognized tier platinum yields HTTP 400 without side
effects; the tier academic with billing period weekly yields the uncaught
KeyError without side effects. -/
theorem C4_validation_witness :
    create_subscription ⟨[sampleUser], [], []⟩ (.success "sub_9" "active" 0 100)
        "platinum" "monthly" "pm_1" "u1"
      = ⟨.httpError 400 "Invalid tier", ⟨[sampleUser], [], []⟩, 0⟩
    ∧ create_subscription ⟨[sampleUser], [], []⟩ (.success "sub_9" "active" 0 100)
        "academic" "weekly" "pm_1" "u1"
      = ⟨.exception "KeyError", ⟨[sampleUser], [], []⟩, 0⟩ :=
  ⟨C4_validation.1 ⟨[sampleUser], [], []⟩ (.success "sub_9" "active" 0 100)
      "platinum" "monthly" "pm_1" "u1" rfl,
   C4_validation.2 ⟨[sampleUser], [], []⟩ (.success "sub_9" "active" 0 100)
      "academic" "weekly" "pm_1" "u1"
      [("monthly", 4950), ("annual", 49500)] rfl rfl⟩

/-- C5: when the external payment processor rejects either the customer
creation or the subscription creation, the request fails with HTTP 400
carrying the processor message verbatim and the database is left exactly as
it was (no subscription row, no change to any user); and whenever a request
changes the database at all, both external calls were made and succeeded —
external creation always precedes local persistence. -/
theorem C5_processor_failure_clean :
    (∀ (db : DB) (ext : ExtBilling)
        (tier billing_period payment_method_id user_id : String)
        (table : List (String × Nat)) (amount : Nat) (u : User) (msg : String),
      pricingLookup tier = some table →
      dictGet table billing_period = some amount →
      db.users.find? (fun x => x.user_id == user_id) = some u →
      (ext = .customerError msg ∨ ext = .subscriptionError msg) →
      (create_subscription db ext tier billing_period payment_method_id user_id).result
          = .httpError 400 msg
      ∧ (create_subscription db ext tier billing_period payment_method_id user_id).db
          = db
      ∧ 1 ≤ (create_subscription db ext tier billing_period payment_method_id user_id).stripeCalls)
    ∧ (∀ (db : DB) (ext : ExtBilling)
        (tier billing_period payment_method_id user_id : String),
      (create_subscription db ext tier billing_period payment_method_id user_id).db ≠ db →
      (create_subscription db ext tier billing_period payment_method_id user_id).stripeCalls = 2
      ∧ ∃ id st ps pe, ext = .success id st ps pe) := by
  constructor
  · intro db ext tier billing_period payment_method_id user_id table amount u msg
      ht hp hu hext
    rcases hext with h | h <;> subst h <;>
      simp [create_subscription, ht, hp, hu]
  · intro db ext tier billing_period payment_method_id user_id h
    cases hpt : pricingLookup tier with
    | none => simp [create_subscription, hpt] at h
    | some table =>
      cases hdg : dictGet table billing_period with
      | none => simp [create_subscription, hpt, hdg] at h
      | some amount =>
        cases hfind : db.users.find? (fun x => x.user_id == user_id) with
        | none => simp [create_subscription, hpt, hdg, hfind] at h
        | some u =>
          cases ext with
          | customerError msg => simp [create_subscription, hpt, hdg, hfind] at h
          | subscriptionError msg => simp [create_subscription, hpt, hdg, hfind] at h
          | success id st ps pe =>
            exact ⟨by simp [create_subscription, hpt, hdg, hfind], id, st, ps, pe, rfl⟩

/-- C5 witness: a declined card on the customer-creation call fails with
the processor message and leaves the store untouched; and a successful run
(which does change the store) made both external calls. -/
theorem C5_processor_failure_clean_witness :
    ((create_subscription ⟨[sampleUser], [], []⟩ (.customerError "Your card was declined.")
        "professional" "monthly" "pm_1" "u1").result
      = .httpError 400 "Your card was declined."
    ∧ (create_subscription ⟨[sampleUser], [], []⟩ (.customerError "Your card was declined.")
        "professional" "monthly" "pm_1" "u1").db
      = ⟨[sampleUser], [], []⟩
    ∧ 1 ≤ (create_subscription ⟨[sampleUser], [], []⟩ (.customerError "Your card was declined.")
        "professional" "monthly" "pm_1" "u1").stripeCalls)
    ∧ ((create_subscription ⟨[sampleUser], [], []⟩ (.success "sub_9" "active" 0 100)
        "professional" "monthly" "pm_1" "u1").stripeCalls = 2
    ∧ ∃ id st ps pe,
        (ExtBilling.success "sub_9" "active" 0 100) = .success id st ps pe) :=
  ⟨C5_processor_failure_clean.1 ⟨[sampleUser], [], []⟩
      (.customerError "Your card was declined.")
      "professional" "monthly" "pm_1" "u1"
      [("monthly", 29900), ("annual", 299000)] 29900 sampleUser
      "Your card was declined." rfl rfl (by decide) (Or.inl rfl),
   C5_processor_failure_clean.2 ⟨[sampleUser], [], []⟩
      (.success "sub_9" "active" 0 100)
      "professional" "monthly" "pm_1" "u1" (by decide)⟩

/-! ## C7, C8: admin statistics and profile -/

/-- C7: an authenticated caller whose stored role is not admin (or who has
no stored row at all) gets HTTP 403 and zero statistics queries are
executed; an admin gets the user count, the active-subscription count, the
research-query count and the estimated monthly revenue, at the cost of the
four statistics queries. -/
theorem C7_admin_stats_gated :
    (∀ (db : DB) (user_id : String),
      ((db.users.find? (fun x => x.user_id == user_id)).map (fun u => u.role))
          ≠ some "admin" →
      get_admin_stats db user_id = ⟨.httpError 403 "Admin access required", 0⟩)
    ∧ (∀ (db : DB) (user_id : String) (u : User),
      db.users.find? (fun x => x.user_id == user_id) = some u →
      u.role = "admin" →
      get_admin_stats db user_id
        = ⟨.ok { total_users := db.users.length,
                 active_subscriptions :=
                   (db.subscriptions.filter (fun s => s.status == "active")).length,
                 total_queries := db.research_queries.length,
                 estimated_monthly_revenue := monthlyRevenue db.subscriptions },
           4⟩) := by
  constructor
  · intro db user_id h
    simp [get_admin_stats, h]
  · intro db user_id u hfind hrole
    simp [get_admin_stats, hfind, hrole]

/-- C7 witness: the researcher u1 is refused with no statistics query; the
admin u2 receives the four statistics (one user each of two rows, one active
subscription at the academic price of 49.5 dollars). -/
theorem C7_admin_stats_gated_witness :
    get_admin_stats ⟨[sampleUser, sampleAdmin], [sampleSub], []⟩ "u1"
      = ⟨.httpError 403 "Admin access required", 0⟩
    ∧ get_admin_stats ⟨[sampleUser, sampleAdmin], [sampleSub], []⟩ "u2"
      = ⟨.ok { total_users := 2, active_subscriptions := 1, total_queries := 0,
               estimated_monthly_revenue := 99 / 2 }, 4⟩ :=
  ⟨C7_admin_stats_gated.1 ⟨[sampleUser, sampleAdmin], [sampleSub], []⟩ "u1"
      (by decide),
   (C7_admin_stats_gated.2 ⟨[sampleUser, sampleAdmin], [sampleSub], []⟩ "u2"
      sampleAdmin (by decide) rfl).trans (by
        simp [sampleUser, sampleAdmin, sampleSub, monthlyRevenue, revenueRows,
          tier_prices])⟩

/-- C8: a profile request for a user id absent from the store fails with
HTTP 404 (and changes nothing); for a present id it answers the full stored
profile of that user. Both branches leave the database untouched. -/
theorem C8_profile_lookup :
    (∀ (db : DB) (user_id : String),
      db.users.find? (fun x => x.user_id == user_id) = none →
      get_user_profile db user_id = (.httpError 404 "User not found", db))
    ∧ (∀ (db : DB) (user_id : String) (u : User),
      db.users.find? (fun x => x.user_id == user_id) = some u →
      get_user_profile db user_id
        = (.ok { user_id := u.user_id, email := u.email,
                 institution := u.institution, role := u.role, tier := u.tier,
                 subscription_status := u.subscription_status,
                 is_academic := u.is_academic,
                 discount_percentage := u.discount_percentage,
                 created_date := u.created_date, last_active := u.last_active,
                 monthly_usage := u.monthly_usage }, db)) := by
  constructor
  · intro db user_id h
    simp [get_user_profile, h]
  · intro db user_id u h
    simp [get_user_profile, h]

/-- C8 witness: an unknown id is answered 404 against a populated store; the
stored researcher u1 receives exactly the stored profile. -/
theorem C8_profile_lookup_witness :
    get_user_profile ⟨[sampleUser, sampleAdmin], [sampleSub], []⟩ "u404"
      = (.httpError 404 "User not found",
         ⟨[sampleUser, sampleAdmin], [sampleSub], []⟩)
    ∧ get_user_profile ⟨[sampleUser, sampleAdmin], [sampleSub], []⟩ "u1"
      = (.ok { user_id := "u1", email := "alice@university.edu",
               institution := "Example University", role := "researcher",
               tier := "academic", subscription_status := "active",
               is_academic := true, discount_percentage := 50,
               created_date := 0, last_active := 0, monthly_usage := [] },
         ⟨[sampleUser, sampleAdmin], [sampleSub], []⟩) :=
  ⟨C8_profile_lookup.1 ⟨[sampleUser, sampleAdmin], [sampleSub], []⟩ "u404" rfl,
   C8_profile_lookup.2 ⟨[sampleUser, sampleAdmin], [sampleSub], []⟩ "u1"
      sampleUser rfl⟩

end ASIS
